import Mathlib

/-!
Verification of the quest matching and progress engine of the music-quest
catalog application (`public/app.js`).

The JavaScript data objects are embedded as Lean structures.  Optional JS
fields (`undefined` when absent) become `Option`; JS strings become `String`;
JS numeric years become `Int`; counts become `Nat`.  JS comparison semantics
on possibly-`undefined` numbers (`undefined < x` and `undefined > x` both
evaluate to `false`) are translated by explicit `match` on the `Option`.
-/

namespace MusicQuest

/-- JS `x || d` on an optional numeric field: `undefined` and `0` are falsy,
so both fall back to the default (e.g. `quest.params.requiredCount || 1`). -/
def jsOrNat (x : Option Nat) (d : Nat) : Nat :=
  match x with
  | none => d
  | some 0 => d
  | some n => n

/-- JS `x || d` on an optional string field: `undefined` and the empty string
are falsy (e.g. `const rateKey = userId || req.ip`). -/
def jsOrStr (x : Option String) (d : String) : String :=
  match x with
  | none => d
  | some s => if s = "" then d else s

/-- A song / recording as the engine reads it: `song_id`, the `artist_ids`
array (which may be absent on client-side song objects), and the optional
release `year`. -/
structure Song where
  song_id : String
  artist_ids : Option (List String)
  year : Option Int
deriving DecidableEq, Repr

/-- A quest's `params` constraint set; every field is optional. -/
structure QuestParams where
  artistId : Option String
  startYear : Option Int
  endYear : Option Int
  requiredCount : Option Nat
deriving DecidableEq, Repr

/-- A quest's mutable `state`: `status`, the ordered `matchedRecordingIds`
sequence, and the auxiliary membership index `matchedRecordingIdsSet`
(a JS object used as a set; embedded as the list of its keys). -/
structure QuestState where
  status : String
  matchedRecordingIds : List String
  matchedRecordingIdsSet : List String
deriving DecidableEq, Repr

/-- A quest's optional `reward`: `{ type: "song", entityId: <song_id> }`. -/
structure Reward where
  type : String
  entityId : String
deriving DecidableEq, Repr

/-- A quest entity. -/
structure Quest where
  id : String
  templateId : Option String
  params : Option QuestParams
  state : QuestState
  reward : Option Reward
deriving DecidableEq, Repr

/-- `recordingMatchesQuestParams(recording, questParams)` from `app.js`
(lines 227-247).  A falsy (`undefined`) `questParams` matches everything.
The artist guard fires only when `questParams.artistId` is truthy (present
and non-empty) and the recording's artist id list (defaulted to `[]` via
`recording.artist_ids || recording.artistIds || []`) does not contain it.
The year guards compare `recording.year` with the bounds; when the year is
`undefined` the JS comparisons `recYear < startYear` / `recYear > endYear`
evaluate to `false`, so neither guard fires. -/
def recordingMatchesQuestParams (recording : Song) (questParams : Option QuestParams) : Bool :=
  match questParams with
  | none => true
  | some p =>
    let recArtistIds := recording.artist_ids.getD []
    if (match p.artistId with
        | some a => a ≠ "" && !(recArtistIds.contains a)
        | none => false) then false
    else if (match p.startYear, recording.year with
        | some b, some y => decide (y < b)
        | some _, none => false
        | none, _ => false) then false
    else if (match p.endYear, recording.year with
        | some b, some y => decide (y > b)
        | some _, none => false
        | none, _ => false) then false
    else true

example : recordingMatchesQuestParams ⟨"rec_1", some ["art_1"], some 2000⟩
    (some ⟨some "art_1", some 1990, some 2005, none⟩) = true := by decide

example : recordingMatchesQuestParams ⟨"rec_1", some ["art_1"], some 2005⟩
    (some ⟨none, some 1990, some 1999, none⟩) = false := by decide

example : recordingMatchesQuestParams ⟨"rec_1", some [], none⟩
    (some ⟨none, some 1990, none, none⟩) = true := by decide

/-- The predicate of the `activeQuests.filter` inside `getQuestsRewardingSong`
(`app.js` lines 616-623): `quest && quest.reward && quest.reward.type === 'song'
&& quest.reward.entityId === song.song_id`. -/
def questRewardsSongId (sid : String) (quest : Quest) : Bool :=
  match quest.reward with
  | some rw => rw.type == "song" && rw.entityId == sid
  | none => false

/-- `getQuestsRewardingSong(song)` from `app.js` (lines 613-624), with the
ambient `activeQuests` list passed explicitly.  A falsy `song` or falsy
`song.song_id` yields `[]`. -/
def getQuestsRewardingSong (song : Option Song) (activeQuests : List Quest) : List Quest :=
  match song with
  | none => []
  | some s =>
    if s.song_id = "" then []
    else activeQuests.filter (questRewardsSongId s.song_id)

/-- The predicate of the `activeQuests.filter` inside `getQuestsForSong`
(`app.js` lines 629-649).  A quest passes when the song is already in its
`matchedRecordingIds`; otherwise it must be `active`, have a `params` object,
and the song must pass the artistId/startYear/endYear guards (note: the
artist guard is skipped when `song.artist_ids` is absent, and the year guards
are skipped when `song.year` is absent, per JS `undefined` semantics). -/
def questMatchesForSong (s : Song) (quest : Quest) : Bool :=
  if quest.state.matchedRecordingIds.contains s.song_id then true
  else if quest.state.status ≠ "active" then false
  else match quest.params with
    | none => false
    | some p =>
      if (match p.artistId, s.artist_ids with
          | some a, some ids => a ≠ "" && !(ids.contains a)
          | _, _ => false) then false
      else if (match p.startYear, s.year with
          | some b, some y => decide (y < b)
          | _, _ => false) then false
      else if (match p.endYear, s.year with
          | some b, some y => decide (y > b)
          | _, _ => false) then false
      else true

/-- `getQuestsForSong(song)` from `app.js` (lines 626-650), with the ambient
`activeQuests` list passed explicitly. -/
def getQuestsForSong (song : Option Song) (activeQuests : List Quest) : List Quest :=
  match song with
  | none => []
  | some s =>
    if s.song_id = "" then []
    else activeQuests.filter (questMatchesForSong s)

/-- `renderQuestProgress(quest)` from `app.js` (lines 1149-1156):
`done = quest.state.matchedRecordingIds.length`,
`total = quest.params.requiredCount || 1`, and the rendered text is
`"Completed"` when the status is `completed`, else `` `${done} / ${total}
completed` ``.  (The JS code reads `quest.params.requiredCount` without a
guard, so it presupposes `params` is present; the embedding threads the
`Option` through `bind`.) -/
def renderQuestProgress (quest : Quest) : String :=
  let done := quest.state.matchedRecordingIds.length
  let total := jsOrNat (quest.params.bind (fun p => p.requiredCount)) 1
  if quest.state.status = "completed" then "Completed"
  else toString done ++ " / " ++ toString total ++ " completed"

/-- The fresh state installed per quest by `POST /developer/quests/reset`
(`app.js` lines 2698-2704): `{ status: "active", matchedRecordingIds: [],
matchedRecordingIdsSet: {} }`. -/
def initialQuestState : QuestState :=
  { status := "active", matchedRecordingIds := [], matchedRecordingIdsSet := [] }

/-- The `quests.forEach` body of `POST /developer/quests/reset` (`app.js`
lines 2695-2717): every quest's `state` is replaced by the initial state. -/
def resetQuests (quests : List Quest) : List Quest :=
  quests.map (fun q => { q with state := initialQuestState })

/-- The `matchedRecordingIdsSet` index agrees with the `matchedRecordingIds`
sequence (the consistency the data model requires between the two). -/
def setConsistent (st : QuestState) : Prop :=
  ∀ s, s ∈ st.matchedRecordingIdsSet ↔ s ∈ st.matchedRecordingIds

/-- The effective required count of a quest:
`(quest.params && quest.params.requiredCount) || 1`, the idiom used by the
client mirror `questImpactForSong` (`app.js` line 264) and by the progress
renderers (lines 1021, 1151, 1164). -/
def requiredCountOf (q : Quest) : Nat :=
  jsOrNat (q.params.bind (fun p => p.requiredCount)) 1

/-- Modelled from the spec: `applyListenEvent(quest, recording)` is imported
from `logic/questEngine.js`, which is not among the available sources (only
its call site in `POST /listen/:recordingId` is).  Modelled from §4.2 of the
spec: (1) a non-`active` quest is frozen; (2) a song id already present in
`matchedRecordingIds` (the set index is the O(1) view of that sequence) is a
no-op; (3) a recording failing the matching predicate is a no-op; (4)
otherwise the song id is appended to the sequence, inserted into the set
index, and the status becomes `completed` when the new length equals the
required count (`requiredCount` defaulting to 1, per the `|| 1` idiom of the
in-source mirrors). -/
def applyListenEvent (quest : Quest) (recording : Song) : Quest :=
  if quest.state.status ≠ "active" then quest
  else if quest.state.matchedRecordingIds.contains recording.song_id then quest
  else if !(recordingMatchesQuestParams recording quest.params) then quest
  else
    { quest with state :=
        { status :=
            if quest.state.matchedRecordingIds.length + 1 = requiredCountOf quest
            then "completed" else quest.state.status
          matchedRecordingIds := quest.state.matchedRecordingIds ++ [recording.song_id]
          matchedRecordingIdsSet := recording.song_id :: quest.state.matchedRecordingIdsSet } }

/-- Folding a sequence of listen events for one quest, in order. -/
def applyEvents (quest : Quest) (events : List Song) : Quest :=
  events.foldl applyListenEvent quest

/-- One entry of the in-memory `listenRate` map: arrival timestamp of the
current window and the count seen in it. -/
structure RateEntry where
  ts : Nat
  count : Nat
deriving DecidableEq, Repr

/-- The `listenRate` map, embedded as an association list keyed by the rate
key (user id or IP). -/
def RateMap : Type := List (String × RateEntry)

/-- JS `Map.set`: replace the binding of `k`. -/
def rateSet (m : RateMap) (k : String) (v : RateEntry) : RateMap :=
  (k, v) :: (List.filter (fun e => e.1 ≠ k) m)

/-- `isRateLimited(key, limit, windowMs)` from `app.js` (lines 2395-2405),
with `Date.now()` passed explicitly and the mutated map returned.  A missing
or expired entry is replaced by a fresh `{ ts: now, count: 1 }` and the call
is not limited; at `count >= limit` the call is limited and the map is left
untouched; otherwise the count is incremented. -/
def isRateLimited (key : String) (limit windowMs now : Nat) (m : RateMap) :
    Bool × RateMap :=
  match List.lookup key m with
  | none => (false, rateSet m key { ts := now, count := 1 })
  | some entry =>
    if windowMs < now - entry.ts then (false, rateSet m key { ts := now, count := 1 })
    else if limit ≤ entry.count then (true, m)
    else (false, rateSet m key { ts := entry.ts, count := entry.count + 1 })

/-- The server state touched by the listen route: the rate-limiter map, the
`songsMap` recording index, and the resident quest list. -/
structure ServerState where
  listenRate : RateMap
  songsMap : List (String × Song)
  quests : List Quest

/-- The typed outcome of `POST /listen/:recordingId`: HTTP 429, HTTP 404, or
HTTP 200 with the updated quest list. -/
inductive ListenResponse where
  | rateLimited
  | notFound
  | success (quests : List Quest)
deriving DecidableEq, Repr

/-- The `POST /listen/:recordingId` handler from `app.js` (lines 2421-2448):
rate key `userId || req.ip`; a rate-limited identity gets 429; an unresolved
recording id gets 404; otherwise `applyListenEvent` runs over every quest
(`quests.forEach`, an in-place map), the write is scheduled (external I/O,
outside the embedding), and the updated quest list is returned. -/
def handleListen (recordingId : String) (userId : Option String) (ip : String)
    (now : Nat) (st : ServerState) : ListenResponse × ServerState :=
  let rateKey := jsOrStr userId ip
  let rl := isRateLimited rateKey 60 60000 now st.listenRate
  if rl.1 then (ListenResponse.rateLimited, { st with listenRate := rl.2 })
  else
    match List.lookup recordingId st.songsMap with
    | none => (ListenResponse.notFound, { st with listenRate := rl.2 })
    | some recording =>
      let newQuests := st.quests.map (fun q => applyListenEvent q recording)
      (ListenResponse.success newQuests,
        { st with listenRate := rl.2, quests := newQuests })

/-! ## Basic facts about the progress engine -/

/-- A quest that is not `active` is frozen by a listen event. -/
theorem applyListenEvent_of_not_active (q : Quest) (r : Song)
    (h : q.state.status ≠ "active") : applyListenEvent q r = q := by
  simp [applyListenEvent, h]

/-- A song already recorded in `matchedRecordingIds` is never re-appended. -/
theorem applyListenEvent_of_mem (q : Quest) (r : Song)
    (h : r.song_id ∈ q.state.matchedRecordingIds) : applyListenEvent q r = q := by
  by_cases h1 : q.state.status ≠ "active"
  · exact applyListenEvent_of_not_active q r h1
  · simp [applyListenEvent, h1, h]

/-- Replacing a quest's `state` leaves its effective required count (a
function of `params` only) unchanged. -/
theorem requiredCountOf_withState (q : Quest) (st : QuestState) :
    requiredCountOf { q with state := st } = requiredCountOf q := rfl

/-- A listen event never changes a quest's `params`, hence not its effective
required count. -/
theorem requiredCountOf_applyListenEvent (q : Quest) (r : Song) :
    requiredCountOf (applyListenEvent q r) = requiredCountOf q := by
  unfold applyListenEvent
  split_ifs <;> rfl

/-- The effective required count is always at least 1 (the `|| 1` default). -/
theorem one_le_requiredCountOf (q : Quest) : 1 ≤ requiredCountOf q := by
  unfold requiredCountOf
  cases h : q.params.bind (fun p => p.requiredCount) with
  | none => simp [jsOrNat]
  | some n => cases n <;> simp [jsOrNat]

/-- The progress/completion invariant of one quest: the matched sequence never
exceeds the required count, and the status is `completed` exactly when the
required count has been reached. -/
def questInvariant (q : Quest) : Prop :=
  q.state.matchedRecordingIds.length ≤ requiredCountOf q ∧
  (q.state.status = "completed" ↔ requiredCountOf q ≤ q.state.matchedRecordingIds.length)

/-- One listen event preserves the progress/completion invariant. -/
theorem questInvariant_applyListenEvent (q : Quest) (r : Song)
    (h : questInvariant q) : questInvariant (applyListenEvent q r) := by
  obtain ⟨hlen, hiff⟩ := h
  unfold applyListenEvent
  split_ifs with h1 h2 h3 h4
  · exact ⟨hlen, hiff⟩
  · exact ⟨hlen, hiff⟩
  · exact ⟨hlen, hiff⟩
  · -- completion: the new length reaches the required count
    simp only [questInvariant, requiredCountOf_withState, List.length_append,
      List.length_cons, List.length_nil]
    refine ⟨by omega, ?_, ?_⟩
    · intro _
      omega
    · intro _
      trivial
  · -- advance without completion
    have hact : q.state.status = "active" := not_not.mp h1
    have hne : q.state.status ≠ "completed" := by
      rw [hact]; decide
    have hlt : q.state.matchedRecordingIds.length < requiredCountOf q := by
      rcases Nat.lt_or_ge q.state.matchedRecordingIds.length (requiredCountOf q) with h | h
      · exact h
      · exact absurd (hiff.mpr h) hne
    simp only [questInvariant, requiredCountOf_withState, List.length_append,
      List.length_cons, List.length_nil]
    refine ⟨by omega, ?_, ?_⟩
    · intro hc
      exact absurd hc hne
    · intro hge
      exfalso
      omega

/-- A recording that fails the matching predicate leaves the quest unchanged. -/
theorem applyListenEvent_of_not_match (q : Quest) (r : Song)
    (h : recordingMatchesQuestParams r q.params = false) : applyListenEvent q r = q := by
  simp [applyListenEvent, h]

/-- In the genuine-advance case the matched sequence is extended by exactly
the new song id. -/
theorem applyListenEvent_matched (q : Quest) (r : Song)
    (h1 : q.state.status = "active")
    (h2 : r.song_id ∉ q.state.matchedRecordingIds)
    (h3 : recordingMatchesQuestParams r q.params = true) :
    (applyListenEvent q r).state.matchedRecordingIds =
      q.state.matchedRecordingIds ++ [r.song_id] := by
  simp [applyListenEvent, h1, h2, h3]

/-- A completed quest is frozen by a listen event. -/
theorem applyListenEvent_of_completed (q : Quest) (r : Song)
    (h : q.state.status = "completed") : applyListenEvent q r = q :=
  applyListenEvent_of_not_active q r (by rw [h]; decide)

/-- Applying the same listen event twice equals applying it once. -/
theorem applyListenEvent_applyListenEvent (q : Quest) (r : Song) :
    applyListenEvent (applyListenEvent q r) r = applyListenEvent q r := by
  by_cases h1 : q.state.status ≠ "active"
  · rw [applyListenEvent_of_not_active q r h1, applyListenEvent_of_not_active q r h1]
  · by_cases h2 : r.song_id ∈ q.state.matchedRecordingIds
    · rw [applyListenEvent_of_mem q r h2, applyListenEvent_of_mem q r h2]
    · by_cases h3 : recordingMatchesQuestParams r q.params
      · have hmem : r.song_id ∈ (applyListenEvent q r).state.matchedRecordingIds := by
          rw [applyListenEvent_matched q r (not_not.mp h1) h2 h3]
          exact List.mem_append_right _ (List.mem_singleton.mpr rfl)
        exact applyListenEvent_of_mem (applyListenEvent q r) r hmem
      · have h3' : recordingMatchesQuestParams r q.params = false :=
          Bool.not_eq_true _ ▸ Bool.of_not_eq_true h3
        rw [applyListenEvent_of_not_match q r h3', applyListenEvent_of_not_match q r h3']

/-- A quest whose state is the initial state satisfies the invariant. -/
theorem questInvariant_initial (q : Quest) (h : q.state = initialQuestState) :
    questInvariant q := by
  have hreq := one_le_requiredCountOf q
  unfold questInvariant
  rw [h]
  refine ⟨Nat.zero_le _, ?_⟩
  constructor
  · intro hc
    exact absurd hc (by decide)
  · intro hge
    exfalso
    simp only [initialQuestState, List.length_nil] at hge
    omega

/-- Events fold one at a time. -/
theorem applyEvents_cons (q : Quest) (r : Song) (evs : List Song) :
    applyEvents q (r :: evs) = applyEvents (applyListenEvent q r) evs := rfl

/-- Folding a concatenation of event lists is folding them in turn. -/
theorem applyEvents_append (q : Quest) (evs1 evs2 : List Song) :
    applyEvents q (evs1 ++ evs2) = applyEvents (applyEvents q evs1) evs2 :=
  List.foldl_append _ _ _ _

/-- The invariant is preserved by any sequence of events. -/
theorem questInvariant_applyEvents (q : Quest) (evs : List Song)
    (h : questInvariant q) : questInvariant (applyEvents q evs) := by
  induction evs generalizing q with
  | nil => exact h
  | cons r evs ih =>
    rw [applyEvents_cons]
    exact ih _ (questInvariant_applyListenEvent q r h)

/-- No sequence of events touches a completed quest. -/
theorem applyEvents_of_completed (q : Quest) (evs : List Song)
    (h : q.state.status = "completed") : applyEvents q evs = q := by
  induction evs with
  | nil => rfl
  | cons r evs ih =>
    rw [applyEvents_cons, applyListenEvent_of_completed q r h, ih]

/-- The effective required count is unchanged by any sequence of events. -/
theorem requiredCountOf_applyEvents (q : Quest) (evs : List Song) :
    requiredCountOf (applyEvents q evs) = requiredCountOf q := by
  induction evs generalizing q with
  | nil => rfl
  | cons r evs ih =>
    rw [applyEvents_cons, ih, requiredCountOf_applyListenEvent]

/-! ## The claims -/

/-- Claim C1: starting from the initial state (`active`, empty
`matchedRecordingIds`) and after any sequence of `applyListenEvent` calls,
`matchedRecordingIds.length` never exceeds the quest's required count
(`params.requiredCount`, defaulting to 1), the status is `completed` exactly
when the length has reached the required count, and once completed the status
never reverts under further events. -/
theorem c1_progress_engine_invariants (q : Quest) (events more : List Song)
    (h : q.state = initialQuestState) :
    (applyEvents q events).state.matchedRecordingIds.length ≤ requiredCountOf q ∧
    ((applyEvents q events).state.status = "completed" ↔
      requiredCountOf q ≤ (applyEvents q events).state.matchedRecordingIds.length) ∧
    ((applyEvents q events).state.status = "completed" →
      (applyEvents q (events ++ more)).state.status = "completed") := by
  have hinv := questInvariant_applyEvents q events (questInvariant_initial q h)
  rw [questInvariant, requiredCountOf_applyEvents] at hinv
  refine ⟨hinv.1, hinv.2, ?_⟩
  intro hc
  rw [applyEvents_append, applyEvents_of_completed _ more hc]
  exact hc

/-- Quest used to instantiate claim C1: requires two listens of songs by
`art_1` (the scenario of §8 of the spec). -/
def c1Quest : Quest :=
  { id := "q1", templateId := none
    params := some { artistId := some "art_1", startYear := none, endYear := none,
                     requiredCount := some 2 }
    state := initialQuestState, reward := none }

/-- Event list used to instantiate claim C1: two distinct songs by `art_1`. -/
def c1Events : List Song :=
  [⟨"rec_1", some ["art_1"], some 2000⟩, ⟨"rec_2", some ["art_1"], some 2001⟩]

/-- Witness for claim C1, at the two-listen scenario of §8 of the spec. -/
theorem c1_progress_engine_invariants_witness :
    (applyEvents c1Quest c1Events).state.matchedRecordingIds.length ≤ requiredCountOf c1Quest ∧
    ((applyEvents c1Quest c1Events).state.status = "completed" ↔
      requiredCountOf c1Quest ≤ (applyEvents c1Quest c1Events).state.matchedRecordingIds.length) ∧
    ((applyEvents c1Quest c1Events).state.status = "completed" →
      (applyEvents c1Quest (c1Events ++ [⟨"rec_3", some ["art_1"], some 2002⟩])).state.status
        = "completed") :=
  c1_progress_engine_invariants c1Quest c1Events [⟨"rec_3", some ["art_1"], some 2002⟩] rfl

/-- Claim C2: `applyListenEvent` is idempotent per song — applying the same
listen event twice yields the state of applying it once, and a song id
already present in `matchedRecordingIds` is never appended again (the event
is a no-op on such a quest). -/
theorem c2_apply_listen_event_idempotent (q : Quest) (r : Song) :
    applyListenEvent (applyListenEvent q r) r = applyListenEvent q r ∧
    (r.song_id ∈ q.state.matchedRecordingIds → applyListenEvent q r = q) :=
  ⟨applyListenEvent_applyListenEvent q r, applyListenEvent_of_mem q r⟩

/-- Quest used to instantiate claim C2: one song already matched, quest
completed (the re-apply scenario of §8 of the spec). -/
def c2Quest : Quest :=
  { id := "q2", templateId := none
    params := some { artistId := some "art_1", startYear := none, endYear := none,
                     requiredCount := some 2 }
    state := { status := "completed", matchedRecordingIds := ["rec_1", "rec_2"],
               matchedRecordingIdsSet := ["rec_2", "rec_1"] }
    reward := none }

/-- Witness for claim C2, re-applying the `rec_1` event to a quest that has
already matched `rec_1`. -/
theorem c2_apply_listen_event_idempotent_witness :
    applyListenEvent (applyListenEvent c2Quest ⟨"rec_1", some ["art_1"], some 2000⟩)
        ⟨"rec_1", some ["art_1"], some 2000⟩
      = applyListenEvent c2Quest ⟨"rec_1", some ["art_1"], some 2000⟩ ∧
    applyListenEvent c2Quest ⟨"rec_1", some ["art_1"], some 2000⟩ = c2Quest :=
  ⟨(c2_apply_listen_event_idempotent c2Quest ⟨"rec_1", some ["art_1"], some 2000⟩).1,
   (c2_apply_listen_event_idempotent c2Quest ⟨"rec_1", some ["art_1"], some 2000⟩).2
     (by decide)⟩

/-- Claim C4: terminal freeze — a listen event applied to a quest whose
status is `completed` changes nothing: the whole quest (its
`matchedRecordingIds`, its `status`, and every other field) is returned
unchanged. -/
theorem c4_terminal_freeze (q : Quest) (r : Song)
    (h : q.state.status = "completed") : applyListenEvent q r = q :=
  applyListenEvent_of_completed q r h

/-- Witness for claim C4, at a completed quest and a fresh matching song. -/
theorem c4_terminal_freeze_witness :
    applyListenEvent c2Quest ⟨"rec_3", some ["art_1"], some 2002⟩ = c2Quest :=
  c4_terminal_freeze c2Quest ⟨"rec_3", some ["art_1"], some 2002⟩ rfl

/-- Counterexample to claim C3: the claim says a recording lacking a year
never matches a quest with a start/end year bound, but in the source the JS
comparisons `undefined < startYear` and `undefined > endYear` evaluate to
`false`, so the rejecting branches are skipped and the recording matches. -/
theorem c3_counterexample :
    recordingMatchesQuestParams ⟨"rec_1", some ["art_1"], none⟩
      (some ⟨none, some 1990, none, none⟩) = true ∧
    recordingMatchesQuestParams ⟨"rec_1", some ["art_1"], none⟩
      (some ⟨none, some 1990, some 1999, none⟩) = true := by
  constructor <;> rfl

/-- Claim C3 (amended): for every quest params and every recording whose year
is missing, the start/end year bounds impose no restriction — the predicate
returns exactly what it returns with the year bounds removed (so only the
artist constraint can reject such a recording). -/
theorem c3_missing_year_bounds_unrestricted (p : QuestParams) (r : Song)
    (h : r.year = none) :
    recordingMatchesQuestParams r (some p) =
      recordingMatchesQuestParams r
        (some { p with startYear := none, endYear := none }) := by
  rcases p with ⟨a, sy, ey, rc⟩
  unfold recordingMatchesQuestParams
  rw [h]
  cases sy <;> cases ey <;> rfl

/-- Witness for the amended claim C3, at a year-bounded params and a
recording with no year. -/
theorem c3_missing_year_bounds_unrestricted_witness :
    recordingMatchesQuestParams ⟨"rec_1", some ["art_1"], none⟩
      (some ⟨some "art_1", some 1990, some 1999, none⟩) =
    recordingMatchesQuestParams ⟨"rec_1", some ["art_1"], none⟩
      (some ⟨some "art_1", none, none, none⟩) :=
  c3_missing_year_bounds_unrestricted ⟨some "art_1", some 1990, some 1999, none⟩
    ⟨"rec_1", some ["art_1"], none⟩ rfl

/-- The year lower-bound rule exactly as claim C6 words it: the recording's
year must be ≥ the bound (a recording with no year has no year that is ≥ the
bound).  Definition follows the claim's words, for comparison with the
source predicate. -/
def yearMeetsLowerBound (y : Option Int) (b : Int) : Bool :=
  match y with
  | some v => decide (b ≤ v)
  | none => false

/-- The year upper-bound rule exactly as claim C6 words it. -/
def yearMeetsUpperBound (y : Option Int) (b : Int) : Bool :=
  match y with
  | some v => decide (v ≤ b)
  | none => false

/-- The matching predicate exactly as claim C6 words it: the logical AND of
the present constraints ("present" for `artistId` meaning a truthy,
non-empty id, per the source's `questParams.artistId &&` guard).  Definition
follows the claim's words, for comparison with the source predicate. -/
def claimedMatches (r : Song) (p : QuestParams) : Bool :=
  (match p.artistId with
   | some a => a == "" || (r.artist_ids.getD []).contains a
   | none => true) &&
  (match p.startYear with
   | some b => yearMeetsLowerBound r.year b
   | none => true) &&
  (match p.endYear with
   | some b => yearMeetsUpperBound r.year b
   | none => true)

/-- Counterexample to claim C6: at a recording with no year and a params with
an `endYear` bound, the source predicate returns true although the claim's
"recording's year must be ≤ endYear" constraint does not hold. -/
theorem c6_counterexample :
    recordingMatchesQuestParams ⟨"rec_2", some ["art_1"], none⟩
      (some ⟨some "art_1", none, some 1999, none⟩) = true ∧
    claimedMatches ⟨"rec_2", some ["art_1"], none⟩
      ⟨some "art_1", none, some 1999, none⟩ = false := by
  constructor <;> rfl

/-- The matching predicate as claim C6 must be amended: as before, except
that a recording lacking a year vacuously satisfies both year bounds. -/
def amendedMatches (r : Song) (p : QuestParams) : Bool :=
  (match p.artistId with
   | some a => a == "" || (r.artist_ids.getD []).contains a
   | none => true) &&
  (match p.startYear, r.year with
   | some b, some v => decide (b ≤ v)
   | _, _ => true) &&
  (match p.endYear, r.year with
   | some b, some v => decide (v ≤ b)
   | _, _ => true)

/-- Negating a decidable strict integer comparison flips it. -/
theorem not_decide_lt (y b : Int) : (!decide (y < b)) = decide (b ≤ y) := by
  by_cases h : y < b
  · have h' : ¬ b ≤ y := by omega
    simp [h, h']
  · have h' : b ≤ y := by omega
    simp [h, h']

/-- Claim C6 (amended): an absent constraint set matches everything, and the
predicate is the logical AND of its present constraints, where a truthy
`artistId` requires membership in the recording's artist id list and the
year bounds are vacuously satisfied by a recording lacking a year. -/
theorem c6_matching_predicate_is_conjunction (r : Song) (p : QuestParams) :
    recordingMatchesQuestParams r none = true ∧
    recordingMatchesQuestParams r (some p) = amendedMatches r p := by
  refine ⟨rfl, ?_⟩
  unfold recordingMatchesQuestParams amendedMatches
  rcases p with ⟨a, sy, ey, rc⟩
  rcases r with ⟨sid, ids, y⟩
  cases a <;> cases sy <;> cases ey <;> cases y <;>
    simp [Bool.beq_eq_decide_eq, not_decide_lt, Bool.and_assoc]

/-- Claim C5: listen-event rejection is atomic — whenever the
`POST /listen/:recordingId` handler answers 404 (unresolved recording id) or
429 (rate-limited identity), the quest list it leaves behind is exactly the
quest list it started from. -/
theorem c5_listen_rejection_atomic (recordingId : String) (userId : Option String)
    (ip : String) (now : Nat) (st : ServerState)
    (h : (handleListen recordingId userId ip now st).1 = ListenResponse.notFound ∨
         (handleListen recordingId userId ip now st).1 = ListenResponse.rateLimited) :
    (handleListen recordingId userId ip now st).2.quests = st.quests := by
  by_cases hb : (isRateLimited (jsOrStr userId ip) 60 60000 now st.listenRate).1 = true
  · simp [handleListen, hb]
  · cases hl : List.lookup recordingId st.songsMap with
    | none => simp [handleListen, hb, hl]
    | some r0 =>
      exfalso
      simp [handleListen, hb, hl] at h

/-- Server state used to instantiate claim C5: no recordings, one quest. -/
def c5State : ServerState :=
  { listenRate := [], songsMap := [], quests := [c1Quest] }

/-- Witness for claim C5: an unresolvable recording id gets 404 and the quest
list is untouched. -/
theorem c5_listen_rejection_atomic_witness :
    (handleListen "rec_404" (some "user_1") "10.0.0.1" 1000 c5State).1
        = ListenResponse.notFound ∧
    (handleListen "rec_404" (some "user_1") "10.0.0.1" 1000 c5State).2.quests
        = c5State.quests :=
  ⟨rfl, c5_listen_rejection_atomic "rec_404" (some "user_1") "10.0.0.1" 1000 c5State
    (Or.inl rfl)⟩

/-- The filter predicate of the reward lookup holds exactly when the quest's
reward is a `song` reward for the given song id. -/
theorem questRewardsSongId_iff (sid : String) (q : Quest) :
    questRewardsSongId sid q = true ↔
      ∃ rw, q.reward = some rw ∧ rw.type = "song" ∧ rw.entityId = sid := by
  unfold questRewardsSongId
  cases hr : q.reward with
  | none => simp
  | some rw => simp [hr]

/-- Claim C7: reward lookup is an exact stable filter — for every quest list
and song with a truthy id, the result is a sublist of the input (input order
preserved) and contains exactly the quests whose reward has type `song` and
`entityId` equal to the song's id. -/
theorem c7_reward_lookup_exact_filter (song : Song) (quests : List Quest)
    (h : song.song_id ≠ "") :
    (getQuestsRewardingSong (some song) quests).Sublist quests ∧
    ∀ q : Quest, q ∈ getQuestsRewardingSong (some song) quests ↔
      q ∈ quests ∧ ∃ rw, q.reward = some rw ∧ rw.type = "song" ∧
        rw.entityId = song.song_id := by
  constructor
  · rw [getQuestsRewardingSong, if_neg h]
    exact List.filter_sublist _
  · intro q
    rw [getQuestsRewardingSong, if_neg h, List.mem_filter,
      questRewardsSongId_iff]

/-- Quest used to instantiate claim C7: rewards the song `rec_9`. -/
def c7Quest : Quest :=
  { id := "q9", templateId := none
    params := some { artistId := none, startYear := none, endYear := none,
                     requiredCount := some 1 }
    state := initialQuestState
    reward := some { type := "song", entityId := "rec_9" } }

/-- Witness for claim C7: over a one-quest list rewarding `rec_9`, the query
for `rec_9` returns exactly that quest. -/
theorem c7_reward_lookup_exact_filter_witness :
    getQuestsRewardingSong (some ⟨"rec_9", none, none⟩) [c7Quest] = [c7Quest] ∧
    (c7Quest ∈ getQuestsRewardingSong (some ⟨"rec_9", none, none⟩) [c7Quest] ↔
      c7Quest ∈ [c7Quest] ∧ ∃ rw, c7Quest.reward = some rw ∧ rw.type = "song" ∧
        rw.entityId = (⟨"rec_9", none, none⟩ : Song).song_id) :=
  ⟨rfl,
   (c7_reward_lookup_exact_filter ⟨"rec_9", none, none⟩ [c7Quest] (by decide)).2 c7Quest⟩

/-- Claim C8: the administrative full reset sets every quest in the store to
the initial state — status `active`, empty `matchedRecordingIds`, and an
empty `matchedRecordingIdsSet` consistent with the empty sequence — while
keeping the same quests (same ids, same count, same order). -/
theorem c8_reset_all_to_initial (quests : List Quest) :
    (∀ q ∈ resetQuests quests, q.state = initialQuestState ∧ setConsistent q.state) ∧
    (resetQuests quests).map (fun q => q.id) = quests.map (fun q => q.id) := by
  constructor
  · intro q hq
    rw [resetQuests, List.mem_map] at hq
    obtain ⟨q0, _, rfl⟩ := hq
    exact ⟨rfl, fun s => Iff.rfl⟩
  · rw [resetQuests, List.map_map]
    rfl

/-- Quest used to instantiate claim C8: completed, with progress recorded. -/
def c8Quest : Quest :=
  { id := "q8", templateId := none
    params := some { artistId := none, startYear := none, endYear := none,
                     requiredCount := some 1 }
    state := { status := "completed", matchedRecordingIds := ["rec_1"],
               matchedRecordingIdsSet := ["rec_1"] }
    reward := none }

/-- Witness for claim C8: resetting a one-quest store yields the initial,
consistent state for its quest. -/
theorem c8_reset_all_to_initial_witness :
    ({ c8Quest with state := initialQuestState } : Quest).state = initialQuestState ∧
    setConsistent ({ c8Quest with state := initialQuestState } : Quest).state :=
  (c8_reset_all_to_initial [c8Quest]).1 { c8Quest with state := initialQuestState }
    (by decide)

/-- The non-completed progress text is never the literal `"Completed"`
(it is strictly longer: at least the 3 + 10 characters of its separators). -/
theorem progress_text_ne_completed (a b : Nat) :
    toString a ++ " / " ++ toString b ++ " completed" ≠ "Completed" := by
  intro hc
  have hlen := congrArg String.length hc
  rw [String.length_append, String.length_append, String.length_append] at hlen
  have h1 : (" / " : String).length = 3 := by decide
  have h2 : (" completed" : String).length = 10 := by decide
  have h3 : ("Completed" : String).length = 9 := by decide
  rw [h1, h2, h3] at hlen
  omega

/-- Claim C9: the progress display contract — for every quest (with a
`params` object, which the JS reads unguarded), the rendered progress shows
`"Completed"` exactly when the status is `completed`, and otherwise shows
`done / total completed` with `done = matchedRecordingIds.length` and
`total = requiredCount || 1`. -/
theorem c9_progress_display_contract (q : Quest) (p : QuestParams)
    (hp : q.params = some p) :
    (renderQuestProgress q = "Completed" ↔ q.state.status = "completed") ∧
    (q.state.status ≠ "completed" →
      renderQuestProgress q =
        toString q.state.matchedRecordingIds.length ++ " / " ++
          toString (jsOrNat p.requiredCount 1) ++ " completed") := by
  have hval : q.state.status ≠ "completed" →
      renderQuestProgress q =
        toString q.state.matchedRecordingIds.length ++ " / " ++
          toString (jsOrNat p.requiredCount 1) ++ " completed" := by
    intro hstat
    simp [renderQuestProgress, hstat, hp]
  refine ⟨⟨?_, ?_⟩, hval⟩
  · intro hcomp
    by_contra hstat
    exact progress_text_ne_completed _ _ ((hval hstat) ▸ hcomp)
  · intro hstat
    simp [renderQuestProgress, hstat]

/-- Completed quest used to instantiate claim C9. -/
def c9Completed : Quest :=
  { id := "q9c", templateId := none
    params := some { artistId := none, startYear := none, endYear := none,
                     requiredCount := some 1 }
    state := { status := "completed", matchedRecordingIds := ["rec_1"],
               matchedRecordingIdsSet := ["rec_1"] }
    reward := none }

/-- Active quest used to instantiate claim C9: no progress, two required. -/
def c9Active : Quest :=
  { id := "q9a", templateId := none
    params := some { artistId := none, startYear := none, endYear := none,
                     requiredCount := some 2 }
    state := initialQuestState
    reward := none }

/-- Witness for claim C9: a completed quest renders `"Completed"`, an active
0-of-2 quest renders `"0 / 2 completed"`. -/
theorem c9_progress_display_contract_witness :
    renderQuestProgress c9Completed = "Completed" ∧
    renderQuestProgress c9Active = "0 / 2 completed" :=
  ⟨(c9_progress_display_contract c9Completed
      ⟨none, none, none, some 1⟩ rfl).1.mpr rfl,
   by
    rw [(c9_progress_display_contract c9Active
      ⟨none, none, none, some 2⟩ rfl).2 (by decide)]
    rfl⟩

/-- The constraint part of claim C10, as the claim words it: every present
`artistId`/`startYear`/`endYear` constraint that the song can be tested
against holds (a truthy artist id must be among the song's artist ids when
the song carries an artist id list; a year bound binds only a song that
carries a year). -/
def songConstraintsOk (s : Song) (p : QuestParams) : Prop :=
  (∀ a ids, p.artistId = some a → a ≠ "" → s.artist_ids = some ids → a ∈ ids) ∧
  (∀ b y, p.startYear = some b → s.year = some y → b ≤ y) ∧
  (∀ b y, p.endYear = some b → s.year = some y → y ≤ b)

/-- The filter predicate of `getQuestsForSong`, characterised: a quest passes
for a song exactly when the song is already matched (any status), or the
quest is active, has params, and the song meets the params' constraints. -/
theorem questMatchesForSong_iff (s : Song) (q : Quest) :
    questMatchesForSong s q = true ↔
      s.song_id ∈ q.state.matchedRecordingIds ∨
        (q.state.status = "active" ∧
          ∃ p, q.params = some p ∧ songConstraintsOk s p) := by
  unfold questMatchesForSong
  by_cases hm : s.song_id ∈ q.state.matchedRecordingIds
  · simp [hm]
  · by_cases hst : q.state.status = "active"
    · cases hp : q.params with
      | none => simp [hm, hst, hp]
      | some p =>
        rcases p with ⟨a, sy, ey, rc⟩
        rcases s with ⟨sid, ids, y⟩
        cases a <;> cases sy <;> cases ey <;> cases ids <;> cases y <;>
          simp [hm, hst, hp, songConstraintsOk, Int.not_lt] <;> tauto
    · simp [hm, hst]

/-- Claim C10: `getQuestsForSong` includes a quest iff the song id is in its
`matchedRecordingIds` (regardless of status) or the quest is active, has a
`params` object (absent params excludes the quest), and the song satisfies
the params' artistId/startYear/endYear constraints; a null song or one with
a falsy `song_id` yields the empty list. -/
theorem c10_get_quests_for_song (song : Song) (quests : List Quest)
    (h : song.song_id ≠ "") :
    getQuestsForSong none quests = [] ∧
    (∀ s : Song, s.song_id = "" → getQuestsForSong (some s) quests = []) ∧
    (∀ q : Quest, q ∈ getQuestsForSong (some song) quests ↔
      q ∈ quests ∧
        (song.song_id ∈ q.state.matchedRecordingIds ∨
          (q.state.status = "active" ∧
            ∃ p, q.params = some p ∧ songConstraintsOk song p))) := by
  refine ⟨rfl, ?_, ?_⟩
  · intro s hs
    simp [getQuestsForSong, hs]
  · intro q
    rw [getQuestsForSong, if_neg h, List.mem_filter, questMatchesForSong_iff]

/-- Song used to instantiate claim C10: by `art_1`, year 2000. -/
def c10Song : Song := ⟨"rec_1", some ["art_1"], some 2000⟩

/-- Witness for claim C10: a song matching an active artist quest is related
to it, and the characterisation instantiates. -/
theorem c10_get_quests_for_song_witness :
    getQuestsForSong none [c1Quest] = [] ∧
    (∀ s : Song, s.song_id = "" → getQuestsForSong (some s) [c1Quest] = []) ∧
    (∀ q : Quest, q ∈ getQuestsForSong (some c10Song) [c1Quest] ↔
      q ∈ [c1Quest] ∧
        (c10Song.song_id ∈ q.state.matchedRecordingIds ∨
          (q.state.status = "active" ∧
            ∃ p, q.params = some p ∧ songConstraintsOk c10Song p))) :=
  c10_get_quests_for_song c10Song [c1Quest] (by decide)

end MusicQuest
